import Mathlib

/-!
Verification of the SmartSensor anomaly-detection pipeline.

Shallow embedding of the core components of the repository:
the escalation dispatcher (`src/consumer/core/actions.py`), the rule
threshold detector (`src/consumer/core/detect.py`), the preprocessor and
message callback (`src/consumer/core/preprocess.py`,
`src/consumer/consumer.py`), the ML orchestrator
(`src/ml-service/models/ml_detector.py`), the model-metadata persistence
layer (`src/ml-service/database.py`) and the z-score strategy
(`src/ml-service/models/zscore_detector.py`).

Python dicts with a fixed key set become structures; insertion-ordered
dicts of unknown key sets become association lists; floats become `ℚ`
where no square root is computed and `ℝ` for the z-score statistics
(numpy's `std`); a raised exception becomes `Option.none` at the point
where the source catches it, and a distinguished result where it
propagates.
-/

namespace SmartSensor

/-! # Escalation dispatcher — `src/consumer/core/actions.py` -/

namespace Actions

/-- Anomaly dict as consumed by `ActionHandler`: only the `severity` key is
read for ladder selection (`anomaly.get("severity", "medium")`); the key
may be absent. -/
structure Anomaly where
  severity : Option String
deriving DecidableEq, Repr

/-- Source `anomaly.get("severity", "medium")`. -/
def severityOf (a : Anomaly) : String := a.severity.getD "medium"

/-- Source `self.escalation_levels` dict together with the
`.get(severity, ["log"])` default used in `handle_anomalies`. -/
def escalation_levels (severity : String) : List String :=
  if severity = "low" then ["log"]
  else if severity = "medium" then ["log", "alert"]
  else if severity = "high" then ["log", "alert", "escalate"]
  else if severity = "critical" then ["log", "alert", "escalate", "emergency"]
  else ["log"]

/-- Result entry appended to `actions_taken`; the audit payload
(timestamps, device id, formatted messages) is abstracted to the action
kind and the anomaly it was run for. -/
structure ActionResult where
  action : String
  anomaly : Anomaly
deriving DecidableEq, Repr

/-- Source `ActionHandler._execute_action`: dispatches on the action type;
the whole body is wrapped in `try/except`, so a failure of the underlying
action (modelled by the oracle `fails`) is caught and yields `None`.
An unknown action type also yields `None` (after a warning). -/
def execute_action (fails : String → Bool) (action_type : String) (a : Anomaly) :
    Option ActionResult :=
  if fails action_type then none
  else if action_type = "log" ∨ action_type = "alert" ∨
      action_type = "escalate" ∨ action_type = "emergency" then
    some ⟨action_type, a⟩
  else none

/-- Inner `for action_type in actions` loop of `handle_anomalies`.
Returns the trace of action kinds that `_execute_action` was invoked on
(first component) together with the non-`None` results accumulated into
`actions_taken` (second component). -/
def run_ladder (fails : String → Bool) (a : Anomaly) :
    List String → List String × List ActionResult
  | [] => ([], [])
  | t :: rest =>
    let res := execute_action fails t a
    let tail := run_ladder fails a rest
    (t :: tail.1, match res with
      | some r => r :: tail.2
      | none => tail.2)

/-- Source `ActionHandler.handle_anomalies`: for each anomaly, looks up the
ladder for its severity and executes every action in it. -/
def handle_anomalies (fails : String → Bool) (anomalies : List Anomaly) :
    List String × List ActionResult :=
  match anomalies with
  | [] => ([], [])
  | a :: rest =>
    let first := run_ladder fails a (escalation_levels (severityOf a))
    let tail := handle_anomalies fails rest
    (first.1 ++ tail.1, first.2 ++ tail.2)

end Actions

/-! # Rule threshold detector — `src/consumer/core/detect.py` -/

namespace Detect

/-- Inbound record dict: the four sensor fields may each be present or
absent; `timestamp`/`device_id` likewise (they are not read by
`detect_basic_thresholds`). -/
structure RawRecord where
  timestamp : Option String
  device_id : Option String
  pm2_5 : Option ℚ
  pm10 : Option ℚ
  dBA : Option ℚ
  vibration : Option ℚ
deriving DecidableEq, Repr

/-- Dict-style key access on a record. -/
def getSensor (r : RawRecord) : String → Option ℚ
  | "pm2_5" => r.pm2_5
  | "pm10" => r.pm10
  | "dBA" => r.dBA
  | "vibration" => r.vibration
  | _ => none

/-- Source `ConsumerDetector.__init__`: `self.sensor_thresholds`, in dict
insertion order; each entry is `(name, warning, critical, severe)`. -/
def sensor_thresholds : List (String × ℚ × ℚ × ℚ) :=
  [("pm2_5", 45, 70, 150),
   ("pm10", 80, 150, 300),
   ("dBA", 80, 95, 120),
   ("vibration", 3/10, 2/5, 1/2)]

/-- Detection entry appended to `results`. The formatted `reason` string is
recorded structurally as the sensor name, offending value and exceeded
threshold. -/
structure ThDetection where
  dtype : String
  severity : String
  sensor_type : String
  value : ℚ
  threshold : ℚ
  detector : String
deriving DecidableEq, Repr

/-- Source `ConsumerDetector.detect_basic_thresholds`, embedded with its
actual indentation: the `if value >= thresholds["severe"]` chain is at the
same indentation level as the `for` loop, so it runs exactly once, after
the loop, using the loop variables as the loop left them — `value` is the
value of the last sensor field present in the record (iteration order of
`sensor_thresholds`), while `sensor_type`/`thresholds` are those of the
final iteration, i.e. the `vibration` entry. When no sensor field is
present, `value` was never assigned and the lookup raises
(`UnboundLocalError`), modelled as `none`. -/
def detect_basic_thresholds (record : RawRecord) : Option (List ThDetection) :=
  let lastVal : Option ℚ :=
    sensor_thresholds.foldl
      (fun acc entry =>
        match getSensor record entry.1 with
        | some v => some v
        | none => acc)
      none
  let last := sensor_thresholds.getLastD ("", 0, 0, 0)
  let sensor_type := last.1
  let warn := last.2.1
  let crit := last.2.2.1
  let sev := last.2.2.2
  match lastVal with
  | none => none
  | some value =>
    if value ≥ sev then
      some [⟨"threshold", "critical", sensor_type, value, sev, "consumer_basic"⟩]
    else if value ≥ crit then
      some [⟨"threshold", "high", sensor_type, value, crit, "consumer_basic"⟩]
    else if value ≥ warn then
      some [⟨"threshold", "medium", sensor_type, value, warn, "consumer_basic"⟩]
    else
      some []

end Detect

/-! # Preprocessor — `src/consumer/core/preprocess.py` -/

namespace Preprocess

/-- Validated and normalized record: all four sensor fields present and in
range. -/
structure CleanRecord where
  timestamp : String
  device_id : String
  pm2_5 : ℚ
  pm10 : ℚ
  dBA : ℚ
  vibration : ℚ
deriving DecidableEq, Repr

/-- Source `Preprocessor.__init__`: `self.expected_fields`, each entry
`(key, min_val, max_val)`, in dict insertion order. -/
def expected_fields : List (String × ℚ × ℚ) :=
  [("pm2_5", 0, 500), ("pm10", 0, 500), ("dBA", 30, 200), ("vibration", 0, 100)]

/-- Source `round(value, 3)`. The reading is modelled as an exact rational,
so the only divergence from CPython is the tie-breaking rule of IEEE
floats at the fourth decimal, which no claim exercises. -/
def round3 (x : ℚ) : ℚ := (round (x * 1000) : ℤ) / 1000

/-- Range check of one field from the `for key, (min_val, max_val)` loop. -/
def checkField (r : Detect.RawRecord) (key : String) (min_val max_val : ℚ) : Option ℚ :=
  match Detect.getSensor r key with
  | none => none
  | some v => if min_val ≤ v ∧ v ≤ max_val then some (round3 v) else none

/-- Source `Preprocessor.validate_and_normalize`: a missing
`timestamp`/`device_id` raises `KeyError`, caught by the surrounding
`except` and turned into `None`; a missing sensor field or an out-of-range
value returns `None`; otherwise the cleaned record with the four values
rounded to three decimals. -/
def validate_and_normalize (r : Detect.RawRecord) : Option CleanRecord :=
  match r.timestamp, r.device_id with
  | some ts, some did =>
    match checkField r "pm2_5" 0 500, checkField r "pm10" 0 500,
        checkField r "dBA" 30 200, checkField r "vibration" 0 100 with
    | some a, some b, some c, some d =>
      some ⟨ts, did, a, b, c, d⟩
    | _, _, _, _ => none
  | _, _ => none

end Preprocess

/-! # Message callback — `src/consumer/consumer.py`, `SmartSensorConsumer.callback` -/

namespace Consumer

/-- Environment of one callback invocation: the outcome of `json.loads`
(`none` models `JSONDecodeError`) and oracles for the fallible
collaborator calls. `detectOutcome = none` models `self.detector.detect`
raising (the exception is caught in the callback and replaced by `[]`);
`storeSensorRaises` and `storeAnomalyRaises` model `db.store_sensor_data`
and `db.store_anomaly` raising — neither call is wrapped, so those
exceptions escape to the callback's outermost handler. The LLM and
dispatcher calls are each wrapped in their own `try/except`, so their
failures have no control effect and need no oracle. -/
structure CbEnv where
  parsed : Option Detect.RawRecord
  storeSensorRaises : Bool
  sensorDataId : Option ℕ
  detectOutcome : Option (List Detect.ThDetection)
  storeAnomalyRaises : Bool
deriving DecidableEq, Repr

/-- Observable transport/record effects of one callback invocation:
how many times `basic_ack` ran, how many times `basic_nack(requeue=True)`
ran, and how many records were appended to `recent_anomalies`. -/
structure CbEffects where
  acks : ℕ
  nacksRequeue : ℕ
  anomalyRecords : ℕ
deriving DecidableEq, Repr

/-- Source `SmartSensorConsumer.callback`. Control flow: `JSONDecodeError`
→ ack (poison message); validation failure → ack and return; then
`db.store_sensor_data` (an exception here escapes to the outer handler →
nack with requeue); detection with its own handler (`anomalies = []` on
failure); if anomalies are present, the anomaly record is appended to
`recent_anomalies` *before* the per-anomaly `db.store_anomaly` loop, so a
raise in that loop (reached only when `sensor_data_id` is truthy) leaves
the record appended and ends in the outer handler → nack; otherwise the
single `basic_ack` at the end runs. -/
def callback (env : CbEnv) : CbEffects :=
  match env.parsed with
  | none => ⟨1, 0, 0⟩
  | some record =>
    match Preprocess.validate_and_normalize record with
    | none => ⟨1, 0, 0⟩
    | some _ =>
      if env.storeSensorRaises then ⟨0, 1, 0⟩
      else
        let anomalies := env.detectOutcome.getD []
        if anomalies = [] then ⟨1, 0, 0⟩
        else if env.sensorDataId.isSome ∧ env.storeAnomalyRaises then ⟨0, 1, 1⟩
        else ⟨1, 0, 1⟩

/-- Condition under which processing after successful validation raises an
exception that escapes the callback's inner handlers (reaching the
outermost `except`): the unwrapped `store_sensor_data` call, or the
unwrapped `store_anomaly` call inside the anomaly loop. -/
def postValidationEscapes (env : CbEnv) : Bool :=
  env.storeSensorRaises ∨
    ((env.detectOutcome.getD [] ≠ []) ∧ env.sensorDataId.isSome ∧ env.storeAnomalyRaises)

end Consumer

/-! # ML orchestrator — `src/ml-service/models/ml_detector.py` -/

namespace Orch

/-- Value stored under a key of a prediction's `details` dict. Nested
dicts (the ensemble's raw member predictions and weight table) are not
representable here and are elided; no claim inspects them. -/
inductive DVal where
  | str (s : String)
  | bool (b : Bool)
  | num (q : ℚ)
deriving DecidableEq, Repr

/-- Prediction dict as produced by every detector backend and by the
orchestrator. -/
structure Prediction where
  category : String
  confidence : ℚ
  anomaly_score : ℚ
  details : List (String × DVal)
deriving DecidableEq, Repr

/-- Reading dict as passed through the orchestrator (it never inspects it,
only forwards it to the backends). -/
structure QReading where
  timestamp : String
  value : ℚ
deriving DecidableEq, Repr

/-- Detector backend as seen by the orchestrator: the key set of its
`sensor_models` dict and its `predict` method; `predict = none` models the
backend raising (caught by the orchestrator). -/
structure Backend where
  sensor_models : String → Bool
  predict : String → QReading → Option Prediction

/-- Association-list lookup mirroring Python `dict[key]` /
`key in dict` on insertion-ordered dicts. -/
def lookupD {α : Type} (l : List (String × α)) (k : String) : Option α :=
  (l.find? (fun e => e.1 = k)).map (fun e => e.2)

/-- Orchestrator state: `self.detectors` (insertion-ordered dict of
initialized backends), the `ensemble_weights` and `enable_ensemble` and
`confidence_threshold` entries of `self.config`, and `self.sensor_configs`
restricted to the recorded `detector_type` (the only field `predict`
reads). -/
structure OrchState where
  detectors : List (String × Backend)
  ensemble_weights : List (String × ℚ)
  ensemble_mode : Bool
  confidence_threshold : ℚ
  sensor_configs : String → Option String

/-- Source `MLDetector._fallback_prediction`. -/
def fallback_prediction (reason : String) : Prediction :=
  ⟨"normal", 1/10, 0, [("reason", DVal.str reason), ("fallback", DVal.bool true)]⟩

/-- Source `MLDetector.predict`. An unknown sensor key yields the fallback;
a recorded detector type whose backend is not initialized triggers a model
load from disk, whose failure path is the fallback (the on-disk artifact
store is outside the embedding, so the load is modelled as failing); a
backend exception (outer `try/except`) yields the fallback; otherwise the
backend's prediction, with `category`/`confidence` overwritten in place
when the confidence is below the configured threshold. -/
def predict (st : OrchState) (sensor_id : String) (r : QReading) : Prediction :=
  match st.sensor_configs sensor_id with
  | none => fallback_prediction "No trained model"
  | some detector_type =>
    match lookupD st.detectors detector_type with
    | none => fallback_prediction "Failed to load model"
    | some det =>
      match det.predict sensor_id r with
      | none => fallback_prediction "Prediction failed"
      | some p =>
        if p.confidence < st.confidence_threshold then
          { p with category := "normal", confidence := 1/10 }
        else p

/-- Members gathered by `predict_ensemble`: iterate `self.detectors` in
insertion order, keep those whose type is a key of the weight table and
which have a trained model for the key; a member raising in `predict` is
skipped (inner `try/except`). -/
def ensemble_members (st : OrchState) (sensor_id : String) (r : QReading) :
    List (String × Prediction) :=
  st.detectors.foldl
    (fun acc e =>
      if (lookupD st.ensemble_weights e.1).isSome ∧ e.2.sensor_models sensor_id then
        match e.2.predict sensor_id r with
        | some p => acc ++ [(e.1, p)]
        | none => acc
      else acc)
    []

/-- Python `categories[category] += weight` with on-demand key insertion:
adds `w` to the entry for `c`, appending a fresh entry when absent,
preserving insertion order. -/
def bump : List (String × ℚ) → String → ℚ → List (String × ℚ)
  | [], c, w => [(c, w)]
  | e :: rest, c, w =>
    if e.1 = c then (e.1, e.2 + w) :: rest else e :: bump rest c w

/-- Python `max(items, key=lambda x: x[1])` over a nonempty list: keeps the
first element and replaces it only on a strictly larger key, so ties keep
the earliest entry. -/
def firstMax : List (String × ℚ) → Option (String × ℚ)
  | [] => none
  | x :: rest => some (rest.foldl (fun b y => if y.2 > b.2 then y else b) x)

/-- Accumulator of the `for detector_type, pred in predictions.items()`
loop of `_combine_predictions`: the `categories` dict and the running
`total_confidence`, `total_anomaly_score`, `total_weight`. -/
def combineTotals (preds : List (String × Prediction)) (weights : List (String × ℚ)) :
    List (String × ℚ) × ℚ × ℚ × ℚ :=
  preds.foldl
    (fun acc e =>
      let w := (lookupD weights e.1).getD (1/10)
      (bump acc.1 e.2.category w,
       acc.2.1 + e.2.confidence * w,
       acc.2.2.1 + e.2.anomaly_score * w,
       acc.2.2.2 + w))
    ([], 0, 0, 0)

/-- Source `MLDetector._combine_predictions`: weighted category voting with
Python's `max` tie-breaking, and weight-averaged confidence and anomaly
score (zero when the total weight is not positive). -/
def combine_predictions (preds : List (String × Prediction))
    (weights : List (String × ℚ)) : Prediction :=
  let t := combineTotals preds weights
  let best := ((firstMax t.1).map (fun e => e.1)).getD ""
  let avg_conf := if t.2.2.2 > 0 then t.2.1 / t.2.2.2 else 0
  let avg_score := if t.2.2.2 > 0 then t.2.2.1 / t.2.2.2 else 0
  ⟨best, avg_conf, avg_score, [("ensemble", DVal.bool true)]⟩

/-- Source `MLDetector.predict_ensemble`: with ensemble mode off, plain
`predict`; otherwise gather members, return the static fallback when none
contributes, else combine. -/
def predict_ensemble (st : OrchState) (sensor_id : String) (r : QReading) :
    Prediction :=
  if st.ensemble_mode = false then predict st sensor_id r
  else
    let preds := ensemble_members st sensor_id r
    if preds = [] then fallback_prediction "No ensemble predictions available"
    else combine_predictions preds st.ensemble_weights

/-- Summed weight contributed to category `c` by the members, as claimed by
the spec's selection rule. -/
def summedWeight (preds : List (String × Prediction))
    (weights : List (String × ℚ)) (c : String) : ℚ :=
  ((preds.filter (fun e => e.2.category = c)).map
    (fun e => (lookupD weights e.1).getD (1/10))).sum

/-- Total weight of the contributing members (spec-side formula for
`total_weight`). -/
def totalWeightOf (preds : List (String × Prediction))
    (weights : List (String × ℚ)) : ℚ :=
  (preds.map (fun e => (lookupD weights e.1).getD (1/10))).sum

/-- Weighted confidence sum of the contributing members (spec-side formula
for `total_confidence`). -/
def weightedConfOf (preds : List (String × Prediction))
    (weights : List (String × ℚ)) : ℚ :=
  (preds.map (fun e => e.2.confidence * (lookupD weights e.1).getD (1/10))).sum

/-- Weighted anomaly-score sum of the contributing members (spec-side
formula for `total_anomaly_score`). -/
def weightedScoreOf (preds : List (String × Prediction))
    (weights : List (String × ℚ)) : ℚ :=
  (preds.map (fun e => e.2.anomaly_score * (lookupD weights e.1).getD (1/10))).sum

/-- Categories accumulator after processing a list of members, starting
from `cats` (the unfolding of the `categories` component of
`combineTotals`'s fold). -/
def catsAfter (weights : List (String × ℚ)) (cats : List (String × ℚ)) :
    List (String × Prediction) → List (String × ℚ)
  | [] => cats
  | e :: rest =>
    catsAfter weights (bump cats e.2.category ((lookupD weights e.1).getD (1/10))) rest

/-- Weight recorded for category `c` in the categories accumulator
(`0` when the key is absent, matching the on-demand initialization). -/
def weightOf : List (String × ℚ) → String → ℚ
  | [], _ => 0
  | e :: rest, c => if e.1 = c then e.2 else weightOf rest c

end Orch

/-! # Model-metadata persistence — `src/ml-service/database.py` -/

namespace MlDb

/-- Metadata dict handed to `save_model_metadata` (the caller in
`training.py` populates `model_type`, `accuracy`, `config`,
`readings_count`; any key may be absent, read with `.get`). -/
structure MetadataIn where
  model_type : Option String
  trained_at : Option String
  accuracy : Option ℚ
  readings_count : Option ℕ
  config : Option String
deriving DecidableEq, Repr

/-- Row of the `ml_models` table as written by the INSERT: the columns
bound by `save_model_metadata`. Timestamps are carried as their ISO
strings. -/
structure MlModelRow where
  model_type : Option String
  trained_at : String
  accuracy : Option ℚ
  config : String
  last_updated : String
deriving DecidableEq, Repr

/-- Table keyed by the `(device_id, sensor_type)` primary key. -/
def SqlDB : Type := List ((String × String) × MlModelRow)

/-- SQL `INSERT ... ON CONFLICT (device_id, sensor_type) DO UPDATE`:
replaces the row under the key if present, else appends it. -/
def upsert : SqlDB → (String × String) → MlModelRow → SqlDB
  | [], k, row => [(k, row)]
  | e :: rest, k, row =>
    if e.1 = k then (k, row) :: rest else e :: upsert rest k row

/-- Source `DatabaseManager.save_model_metadata`: binds
`model_type := metadata.get('model_type')`,
`trained_at := datetime.now()` (the `now` argument — NOT the metadata's
`trained_at`), `accuracy := metadata.get('accuracy')`,
`config := str(metadata.get('config', {}))`,
`last_updated := datetime.now()`; `readings_count` is not a column of the
statement. -/
def save_model_metadata (db : SqlDB) (device_id sensor_type : String)
    (metadata : MetadataIn) (now : String) : SqlDB :=
  upsert db (device_id, sensor_type)
    { model_type := metadata.model_type
      trained_at := now
      accuracy := metadata.accuracy
      config := metadata.config.getD "{}"
      last_updated := now }

/-- Value of one column of the result dict built by `get_model_metadata`
(`None` / string / float). -/
inductive MVal where
  | null
  | str (s : String)
  | num (q : ℚ)
deriving DecidableEq, Repr

/-- Source `DatabaseManager.get_model_metadata`: selects
`model_type, trained_at, accuracy, last_updated` for the key (the key is
unique, so `ORDER BY ... LIMIT 1` is the sole row) and builds the result
dict; note `float(row[2]) if row[2] else None` maps both NULL and a stored
`0.0` accuracy to `None`, and `trained_at` is the stored column (always
set by the insert). Returns `none` when no row matches. -/
def get_model_metadata (db : SqlDB) (device_id sensor_type : String) :
    Option (List (String × MVal)) :=
  match (db.find? (fun e => e.1 = (device_id, sensor_type))).map (fun e => e.2) with
  | none => none
  | some row =>
    some
      [("model_type", match row.model_type with
         | some s => MVal.str s
         | none => MVal.null),
       ("trained_at", MVal.str row.trained_at),
       ("accuracy", match row.accuracy with
         | some a => if a = 0 then MVal.null else MVal.num a
         | none => MVal.null),
       ("last_updated", MVal.str row.last_updated)]

end MlDb

/-! # Z-score strategy — `src/ml-service/models/zscore_detector.py`

Floats become real numbers here because `np.std` takes a square root. -/

namespace ZScore

/-- Python `xs[-n:]` on a list. -/
def lastN {α : Type} (n : ℕ) (xs : List α) : List α := xs.drop (xs.length - n)

/-- Source `np.mean` (population mean). -/
noncomputable def npMean (xs : List ℝ) : ℝ := xs.sum / xs.length

/-- Mean squared deviation, the radicand of `np.std`. -/
noncomputable def npVar (xs : List ℝ) : ℝ :=
  npMean (xs.map (fun x => (x - npMean xs) ^ 2))

/-- Source `np.std` (population standard deviation). -/
noncomputable def npStd (xs : List ℝ) : ℝ := Real.sqrt (npVar xs)

/-- Source configuration defaults of `ZScoreDetector.__init__`. -/
structure ZConfig where
  window_size : ℕ
  z_threshold : ℝ
  drift_threshold : ℝ
  noise_threshold : ℝ
  min_readings : ℕ

/-- Default `ZScoreDetector` configuration. -/
noncomputable def defaultZConfig : ZConfig :=
  { window_size := 50, z_threshold := 3, drift_threshold := 1/10,
    noise_threshold := 1/20, min_readings := 10 }

/-- Entry of `self.sensor_stats[sensor_id]` (`min`/`max` renamed to
`vmin`/`vmax`). -/
structure ZState where
  mean : ℝ
  std : ℝ
  vmin : ℝ
  vmax : ℝ
  last_values : List ℝ
  last_timestamps : List String
  total_readings : ℕ

/-- Reading dict with `timestamp` and `value` keys. The embedding's typing
discharges `validate_input`'s per-reading format checks (parseable
timestamp, finite float value). -/
structure Reading where
  timestamp : String
  value : ℝ

/-- Source `ZScoreDetector.fit`: rejects an empty list
(`validate_input`) or fewer than `min_readings` readings; otherwise stores
whole-series mean/std/min/max and the last `window_size` values and
timestamps. -/
noncomputable def fit (cfg : ZConfig) (readings : List Reading) : Option ZState :=
  if readings.isEmpty then none
  else if readings.length < cfg.min_readings then none
  else
    let values := readings.map (fun r => r.value)
    let timestamps := readings.map (fun r => r.timestamp)
    some
      { mean := npMean values
        std := npStd values
        vmin := values.foldl min (values.headD 0)
        vmax := values.foldl max (values.headD 0)
        last_values := lastN cfg.window_size values
        last_timestamps := lastN cfg.window_size timestamps
        total_readings := values.length }

/-- Source `ZScoreDetector._update_stats`: append the new value and
timestamp, pop the oldest pair once the window exceeds `window_size`, then
recompute mean and std over the window. -/
noncomputable def updateStats (cfg : ZConfig) (s : ZState) (v : ℝ) (ts : String) :
    ZState :=
  let vals0 := s.last_values ++ [v]
  let tss0 := s.last_timestamps ++ [ts]
  let vals := if cfg.window_size < vals0.length then vals0.tail else vals0
  let tss := if cfg.window_size < tss0.length then tss0.tail else tss0
  { s with
    mean := npMean vals
    std := npStd vals
    last_values := vals
    last_timestamps := tss
    total_readings := s.total_readings + 1 }

/-- Z-score computed in `predict`:
`abs((value - stats['mean']) / stats['std']) if stats['std'] > 0 else 0`. -/
noncomputable def zScoreOf (s : ZState) (value : ℝ) : ℝ :=
  if s.std > 0 then |value - s.mean| / s.std else 0

/-- Prediction of the z-score strategy; detail values are reals. -/
structure ZPrediction where
  category : String
  confidence : ℝ
  anomaly_score : ℝ
  details : List (String × ℝ)

/-- Relative short-vs-long window mean difference of
`_classify_reading`'s drift check, over the (already updated) stored
window of a state. -/
noncomputable def driftLevel (s : ZState) : ℝ :=
  |npMean (lastN 10 s.last_values) - s.mean| / max |s.mean| (1/1000000)

/-- Source `ZScoreDetector._classify_reading`, receiving the state as
mutated by `_update_stats` (the code passes the same dict it just
updated). Returns `(category, confidence, details)`. -/
noncomputable def classifyReading (cfg : ZConfig) (s : ZState) (value z : ℝ) :
    String × ℝ × List (String × ℝ) :=
  let details := [("z_score", z), ("mean", s.mean), ("std", s.std), ("value", value)]
  if z > cfg.z_threshold * 2 then ("alert", 9/10, details)
  else if z > cfg.z_threshold then ("noise", 7/10, details)
  else if 10 ≤ s.last_values.length ∧ driftLevel s > cfg.drift_threshold then
    ("drift", 6/10, details ++ [("drift_level", driftLevel s)])
  else if 5 ≤ s.last_values.length ∧
      npStd (lastN 5 s.last_values) > s.std * (1 + cfg.noise_threshold) then
    ("noise", 5/10, details ++ [("noise_std", npStd (lastN 5 s.last_values))])
  else ("normal", 8/10, details)

/-- Source `ZScoreDetector.predict` on a trained state: compute the
z-score from the stored statistics, update the rolling statistics in
place, classify against the updated statistics, and return the prediction
together with the updated state. -/
noncomputable def predictTrained (cfg : ZConfig) (s : ZState) (r : Reading) :
    ZPrediction × ZState :=
  let value := r.value
  let z := zScoreOf s value
  let s' := updateStats cfg s value r.timestamp
  let c := classifyReading cfg s' value z
  (⟨c.1, c.2.1, min (z / cfg.z_threshold) 1, c.2.2⟩, s')

/-- Source `ZScoreDetector._fallback_prediction` (the detail dict holds a
string and a boolean, recorded here structurally alongside the numeric
details as the pair of flags the claims inspect). -/
def zFallbackCategory : String := "normal"

/-- Source `ZScoreDetector.predict`, top level: a sensor key with no
trained model yields the fallback prediction
`{category: normal, confidence: 0.1, anomaly_score: 0.0,
details: {reason, fallback: True}}`; the fallback's details are
string/boolean valued, so the function exposes the prediction's numeric
fields plus a `fallback` flag. -/
noncomputable def predict (cfg : ZConfig) (models : String → Option ZState)
    (sensor_id : String) (r : Reading) :
    (String × ℝ × ℝ × Bool) × (String → Option ZState) :=
  match models sensor_id with
  | none => (("normal", 1/10, 0, true), models)
  | some s =>
    let pr := predictTrained cfg s r
    ((pr.1.category, pr.1.confidence, pr.1.anomaly_score, false),
     fun k => if k = sensor_id then some pr.2 else models k)

/-- Claim-side (refinement) definition: the baseline classification
cascade exactly as the specification sentence states it —
`z = |value - mean| / std` (0 when `std = 0`); `z > 2*threshold` → alert
0.9; else `z > threshold` → noise 0.7; else short-vs-long window relative
mean difference above `drift_threshold` → drift 0.6; else recent-5 std
above historical std times `(1 + noise_threshold)` → noise 0.5; else
normal 0.8; `anomaly_score = min(z/threshold, 1)`. The windows are those
of the rolling state after absorbing the reading. -/
noncomputable def specBaselinePredict (cfg : ZConfig) (s : ZState) (r : Reading) :
    String × ℝ × ℝ :=
  let z := if s.std = 0 then 0 else |r.value - s.mean| / s.std
  let w := (updateStats cfg s r.value r.timestamp).last_values
  let shortLongDiff := |npMean (lastN 10 w) - npMean w| / max |npMean w| (1/1000000)
  let inflated := npStd (lastN 5 w) > npStd w * (1 + cfg.noise_threshold)
  let cc : String × ℝ :=
    if z > 2 * cfg.z_threshold then ("alert", 9/10)
    else if z > cfg.z_threshold then ("noise", 7/10)
    else if shortLongDiff > cfg.drift_threshold then ("drift", 6/10)
    else if inflated then ("noise", 5/10)
    else ("normal", 8/10)
  (cc.1, cc.2, min (z / cfg.z_threshold) 1)

/-- Severity rank of the ML categories used by the monotonicity claims:
normal 0 ≤ drift 1 ≤ noise 2 ≤ alert 3. -/
def severityRank (c : String) : ℕ :=
  if c = "alert" then 3
  else if c = "noise" then 2
  else if c = "drift" then 1
  else 0

end ZScore

/-! # Concrete instances used by the counterexamples and bug exhibits -/

/-- Validated record carrying `pm2_5 = 160` (all four fields present and in
range, as every record that passes the preprocessor is). -/
def failingRecord : Detect.RawRecord :=
  { timestamp := some "2024-01-01T00:00:00"
    device_id := some "dev-1"
    pm2_5 := some 160
    pm10 := some 10
    dBA := some 40
    vibration := some (1/10) }

/-- Training series for the monotonicity counterexample: eleven readings
whose rolling window makes the variance-inflation check fire for a reading
at distance 5/11 from the mean but not for one at distance 16/11. -/
def cexReadings : List ZScore.Reading :=
  [⟨"t1", 1⟩, ⟨"t2", -2⟩, ⟨"t3", 0⟩, ⟨"t4", -1⟩, ⟨"t5", -2⟩, ⟨"t6", -2⟩,
   ⟨"t7", 0⟩, ⟨"t8", -1⟩, ⟨"t9", 0⟩, ⟨"t10", 3⟩, ⟨"t11", -1⟩]

/-- The trained state `fit` produces from `cexReadings`: mean `-5/11`,
std `√(250/121)`, the full series as rolling window. -/
noncomputable def cexState : ZScore.ZState :=
  { mean := -(5/11)
    std := Real.sqrt (250/121)
    vmin := -2
    vmax := 3
    last_values := [1, -2, 0, -1, -2, -2, 0, -1, 0, 3, -1]
    last_timestamps := ["t1", "t2", "t3", "t4", "t5", "t6", "t7", "t8", "t9",
      "t10", "t11"]
    total_readings := 11 }

/-- Orchestrator state with ensemble mode on, a trained `zscore` backend,
but a weight table that names only `stl`: no detector can contribute to
the ensemble, while the single-strategy `predict` path works. -/
def mismatchedEnsembleState : Orch.OrchState :=
  { detectors :=
      [("zscore", ⟨fun _ => true, fun _ _ => some ⟨"alert", 9/10, 1, []⟩⟩)]
    ensemble_weights := [("stl", 2/5)]
    ensemble_mode := true
    confidence_threshold := 1/2
    sensor_configs := fun _ => some "zscore" }

/-! # Supporting lemmas -/

namespace Actions

/-- The invocation trace of `run_ladder` is the ladder itself, whatever the
failure oracle says: every action in the list is attempted. -/
theorem run_ladder_fst (fails : String → Bool) (a : Anomaly) :
    ∀ l : List String, (run_ladder fails a l).1 = l := by
  intro l
  induction l with
  | nil => rfl
  | cons t rest ih => simp [run_ladder, ih]

/-- The full invocation trace of `handle_anomalies` is the concatenation of
the per-anomaly ladders, independent of the failure oracle. -/
theorem handle_anomalies_fst (fails : String → Bool) :
    ∀ anomalies : List Anomaly,
      (handle_anomalies fails anomalies).1 =
        anomalies.flatMap (fun x => escalation_levels (severityOf x)) := by
  intro anomalies
  induction anomalies with
  | nil => rfl
  | cons a rest ih => simp [handle_anomalies, run_ladder_fst, ih]

end Actions

namespace MlDb

/-- Looking a key up right after upserting it finds the upserted row. -/
theorem find?_upsert (db : SqlDB) (k : String × String) (row : MlModelRow) :
    (upsert db k row).find? (fun e => e.1 = k) = some (k, row) := by
  induction db with
  | nil => simp [upsert, List.find?]
  | cons e rest ih =>
    by_cases h : e.1 = k
    · simp [upsert, h, List.find?]
    · simp [upsert, h, List.find?, ih]

end MlDb

namespace Orch

/-- Unfolding of `combineTotals`'s fold: the categories accumulator is
`catsAfter` and the three running sums are the spec-side sums shifted by
the initial values. -/
theorem combineTotals_foldl (weights : List (String × ℚ)) :
    ∀ (preds : List (String × Prediction)) (cats : List (String × ℚ)) (x y z : ℚ),
      (preds.foldl
        (fun acc e =>
          let w := (lookupD weights e.1).getD (1/10)
          (bump acc.1 e.2.category w,
           acc.2.1 + e.2.confidence * w,
           acc.2.2.1 + e.2.anomaly_score * w,
           acc.2.2.2 + w))
        (cats, x, y, z)) =
      (catsAfter weights cats preds,
       x + weightedConfOf preds weights,
       y + weightedScoreOf preds weights,
       z + totalWeightOf preds weights) := by
  intro preds
  induction preds with
  | nil => intro cats x y z; simp [catsAfter, weightedConfOf, weightedScoreOf, totalWeightOf]
  | cons e rest ih =>
    intro cats x y z
    simp only [List.foldl_cons, ih, catsAfter, weightedConfOf, weightedScoreOf,
      totalWeightOf, List.map_cons, List.sum_cons, Prod.mk.injEq]
    refine ⟨trivial, by ring, by ring, by ring⟩

/-- The four components of `combineTotals` in spec-side terms. -/
theorem combineTotals_eq (preds : List (String × Prediction))
    (weights : List (String × ℚ)) :
    combineTotals preds weights =
      (catsAfter weights [] preds, weightedConfOf preds weights,
       weightedScoreOf preds weights, totalWeightOf preds weights) := by
  have h := combineTotals_foldl weights preds [] 0 0 0
  simpa [combineTotals] using h

/-- Bumping never empties the accumulator. -/
theorem bump_ne_nil (cats : List (String × ℚ)) (c : String) (w : ℚ) :
    bump cats c w ≠ [] := by
  cases cats with
  | nil => simp [bump]
  | cons e rest =>
    by_cases h : e.1 = c <;> simp [bump, h]

/-- A nonempty accumulator stays nonempty through `catsAfter`. -/
theorem catsAfter_ne_nil (weights : List (String × ℚ)) :
    ∀ (preds : List (String × Prediction)) (cats : List (String × ℚ)),
      cats ≠ [] → catsAfter weights cats preds ≠ [] := by
  intro preds
  induction preds with
  | nil => intro cats h; exact h
  | cons e rest ih =>
    intro cats _
    exact ih _ (bump_ne_nil cats e.2.category _)

/-- Key membership after a bump: the bumped key joins the key set. -/
theorem mem_keys_bump (c : String) (w : ℚ) (x : String) :
    ∀ cats : List (String × ℚ),
      (x ∈ (bump cats c w).map (fun e => e.1) ↔
        x ∈ cats.map (fun e => e.1) ∨ x = c) := by
  intro cats
  induction cats with
  | nil => simp [bump]
  | cons e rest ih =>
    by_cases h : e.1 = c
    · subst h
      simp [bump]
      tauto
    · simp [bump, h, ih]
      tauto

/-- Keys of the accumulator after processing members: the initial keys plus
the members' categories. -/
theorem mem_keys_catsAfter (weights : List (String × ℚ)) (x : String) :
    ∀ (preds : List (String × Prediction)) (cats : List (String × ℚ)),
      (x ∈ (catsAfter weights cats preds).map (fun e => e.1) ↔
        x ∈ cats.map (fun e => e.1) ∨ x ∈ preds.map (fun e => e.2.category)) := by
  intro preds
  induction preds with
  | nil => simp [catsAfter]
  | cons e rest ih =>
    intro cats
    simp only [catsAfter, ih, mem_keys_bump, List.map_cons, List.mem_cons]
    tauto

/-- Bumping a category adds the weight to its recorded total. -/
theorem weightOf_bump_self (c : String) (w : ℚ) :
    ∀ cats : List (String × ℚ), weightOf (bump cats c w) c = weightOf cats c + w := by
  intro cats
  induction cats with
  | nil => simp [bump, weightOf]
  | cons e rest ih =>
    by_cases h : e.1 = c
    · simp [bump, h, weightOf]
    · simp [bump, h, weightOf, ih]

/-- Bumping one category leaves every other category's total unchanged. -/
theorem weightOf_bump_other (c d : String) (w : ℚ) (hdc : d ≠ c) :
    ∀ cats : List (String × ℚ), weightOf (bump cats c w) d = weightOf cats d := by
  intro cats
  induction cats with
  | nil => simp [bump, weightOf, Ne.symm hdc]
  | cons e rest ih =>
    by_cases h : e.1 = c
    · subst h
      simp [bump, weightOf, Ne.symm hdc]
    · by_cases h2 : e.1 = d
      · subst h2
        simp [bump, h, weightOf]
      · simp [bump, h, weightOf, h2, ih]

/-- Head decomposition of `summedWeight`. -/
theorem summedWeight_cons (e : String × Prediction)
    (rest : List (String × Prediction)) (weights : List (String × ℚ)) (c : String) :
    summedWeight (e :: rest) weights c =
      (if e.2.category = c then (lookupD weights e.1).getD (1/10) else 0) +
        summedWeight rest weights c := by
  by_cases h : e.2.category = c <;> simp [summedWeight, List.filter, h]

/-- The accumulator's recorded total for a category is its initial value
plus the summed weight the members contribute to that category. -/
theorem weightOf_catsAfter (weights : List (String × ℚ)) (c : String) :
    ∀ (preds : List (String × Prediction)) (cats : List (String × ℚ)),
      weightOf (catsAfter weights cats preds) c =
        weightOf cats c + summedWeight preds weights c := by
  intro preds
  induction preds with
  | nil => simp [catsAfter, summedWeight]
  | cons e rest ih =>
    intro cats
    rw [catsAfter, ih, summedWeight_cons]
    by_cases h : e.2.category = c
    · rw [if_pos h, h, weightOf_bump_self]
      ring
    · rw [if_neg h, weightOf_bump_other _ _ _ (fun hx => h hx.symm)]
      ring

/-- Bumping preserves distinctness of the recorded keys. -/
theorem keys_nodup_bump (c : String) (w : ℚ) :
    ∀ cats : List (String × ℚ),
      (cats.map (fun e => e.1)).Nodup → ((bump cats c w).map (fun e => e.1)).Nodup := by
  intro cats
  induction cats with
  | nil => simp [bump]
  | cons e rest ih =>
    intro hnd
    simp only [List.map_cons, List.nodup_cons] at hnd
    by_cases h : e.1 = c
    · subst h
      simpa [bump, List.nodup_cons] using hnd
    · simp only [bump, h, if_false, List.map_cons, List.nodup_cons]
      refine ⟨fun hmem => ?_, ih hnd.2⟩
      rcases (mem_keys_bump c w e.1 rest).mp hmem with hm | hm
      · exact hnd.1 hm
      · exact h hm

/-- Processing members preserves distinctness of the recorded keys. -/
theorem keys_nodup_catsAfter (weights : List (String × ℚ)) :
    ∀ (preds : List (String × Prediction)) (cats : List (String × ℚ)),
      (cats.map (fun e => e.1)).Nodup →
      ((catsAfter weights cats preds).map (fun e => e.1)).Nodup := by
  intro preds
  induction preds with
  | nil => intro cats h; simpa [catsAfter] using h
  | cons e rest ih =>
    intro cats h
    exact ih _ (keys_nodup_bump _ _ _ h)

/-- With distinct keys, an entry of the accumulator records exactly the
`weightOf` of its key. -/
theorem weightOf_of_mem (x : String × ℚ) :
    ∀ cats : List (String × ℚ),
      (cats.map (fun e => e.1)).Nodup → x ∈ cats → weightOf cats x.1 = x.2 := by
  intro cats
  induction cats with
  | nil => simp
  | cons e rest ih =>
    intro hnd hmem
    simp only [List.map_cons, List.nodup_cons] at hnd
    rcases List.mem_cons.mp hmem with h | h
    · subst h
      simp [weightOf]
    · have hne : e.1 ≠ x.1 := by
        intro hx
        exact hnd.1 (hx ▸ List.mem_map.mpr ⟨x, h, rfl⟩)
      rw [weightOf, if_neg hne]
      exact ih hnd.2 h

/-- Python's `max(..., key=...)`: the result is a list member and its key
is maximal. -/
theorem firstMax_spec (l : List (String × ℚ)) (m : String × ℚ)
    (h : firstMax l = some m) : m ∈ l ∧ ∀ x ∈ l, x.2 ≤ m.2 := by
  match l, h with
  | x :: rest, h =>
    simp only [firstMax, Option.some_inj] at h
    subst h
    have key : ∀ (rest : List (String × ℚ)) (b : String × ℚ),
        (rest.foldl (fun b y => if y.2 > b.2 then y else b) b = b ∨
          rest.foldl (fun b y => if y.2 > b.2 then y else b) b ∈ rest) ∧
        b.2 ≤ (rest.foldl (fun b y => if y.2 > b.2 then y else b) b).2 ∧
        ∀ x ∈ rest, x.2 ≤ (rest.foldl (fun b y => if y.2 > b.2 then y else b) b).2 := by
      intro rest
      induction rest with
      | nil => intro b; simp
      | cons y t ih =>
        intro b
        simp only [List.foldl_cons]
        by_cases hy : y.2 > b.2
        · rw [if_pos hy]
          rcases ih y with ⟨hm, hle, hall⟩
          refine ⟨?_, le_trans (le_of_lt hy) hle, ?_⟩
          · rcases hm with hm | hm
            · exact Or.inr (by simp [hm])
            · exact Or.inr (List.mem_cons_of_mem _ hm)
          · intro x hx
            rcases List.mem_cons.mp hx with hx | hx
            · exact hx ▸ hle
            · exact hall x hx
        · rw [if_neg hy]
          rcases ih b with ⟨hm, hle, hall⟩
          refine ⟨?_, hle, ?_⟩
          · rcases hm with hm | hm
            · exact Or.inl hm
            · exact Or.inr (List.mem_cons_of_mem _ hm)
          · intro x hx
            rcases List.mem_cons.mp hx with hx | hx
            · exact hx ▸ le_trans (le_of_not_lt hy) hle
            · exact hall x hx
    rcases key rest x with ⟨hm, hle, hall⟩
    constructor
    · rcases hm with hm | hm
      · rw [hm]
        exact List.mem_cons_self x rest
      · exact List.mem_cons_of_mem _ hm
    · intro z hz
      rcases List.mem_cons.mp hz with hz | hz
      · exact hz ▸ hle
      · exact hall z hz

end Orch

namespace ZScore

/-- Absorbing one reading keeps the rolling window at ten values or more:
at most one element is popped after the append. -/
theorem updateStats_len_ge (cfg : ZConfig) (s : ZState) (v : ℝ) (ts : String)
    (h : 10 ≤ s.last_values.length) :
    10 ≤ (updateStats cfg s v ts).last_values.length := by
  simp only [updateStats, List.length_append, List.length_singleton]
  by_cases hw : cfg.window_size < s.last_values.length + 1
  · simp only [hw, if_true, List.length_tail, List.length_append,
      List.length_singleton]
    omega
  · simp only [hw, if_false, List.length_append, List.length_singleton]
    omega

/-- The updated state's stored mean is the mean of its stored window. -/
theorem updateStats_mean (cfg : ZConfig) (s : ZState) (v : ℝ) (ts : String) :
    (updateStats cfg s v ts).mean =
      npMean (updateStats cfg s v ts).last_values := rfl

/-- The updated state's stored std is the std of its stored window. -/
theorem updateStats_std (cfg : ZConfig) (s : ZState) (v : ℝ) (ts : String) :
    (updateStats cfg s v ts).std =
      npStd (updateStats cfg s v ts).last_values := rfl

/-- Square-root comparison: `|a| / √b ≤ c` follows from `a² ≤ c²·b`. -/
theorem abs_div_sqrt_le_of_sq_le (a b c : ℝ) (hb : 0 < b) (hc : 0 ≤ c)
    (h : a ^ 2 ≤ c ^ 2 * b) : |a| / Real.sqrt b ≤ c := by
  rw [div_le_iff₀ (Real.sqrt_pos.mpr hb)]
  have hcs : c * Real.sqrt b = Real.sqrt (c ^ 2 * b) := by
    rw [Real.sqrt_mul (sq_nonneg c) b, Real.sqrt_sq hc]
  rw [hcs]
  calc |a| = Real.sqrt (a ^ 2) := (Real.sqrt_sq_eq_abs a).symm
  _ ≤ Real.sqrt (c ^ 2 * b) := Real.sqrt_le_sqrt h

/-- Square-root comparison: `√a · c < √b` follows from `c²·a < b`. -/
theorem sqrt_mul_lt_sqrt_of_sq_lt (a b c : ℝ) (ha : 0 ≤ a) (hc : 0 ≤ c)
    (h : c ^ 2 * a < b) : Real.sqrt a * c < Real.sqrt b := by
  have hcs : Real.sqrt a * c = Real.sqrt (c ^ 2 * a) := by
    rw [Real.sqrt_mul (sq_nonneg c) a, Real.sqrt_sq hc, mul_comm]
  rw [hcs]
  exact Real.sqrt_lt_sqrt (by positivity) h

/-- Square-root comparison: `√b ≤ √a · c` follows from `b ≤ c²·a`. -/
theorem sqrt_le_sqrt_mul_of_sq_le (a b c : ℝ) (hc : 0 ≤ c)
    (h : b ≤ c ^ 2 * a) : Real.sqrt b ≤ Real.sqrt a * c := by
  have hcs : Real.sqrt a * c = Real.sqrt (c ^ 2 * a) := by
    rw [Real.sqrt_mul (sq_nonneg c) a, Real.sqrt_sq hc, mul_comm]
  rw [hcs]
  exact Real.sqrt_le_sqrt h

/-- The returned category is determined by `classifyReading` against the
updated statistics and the pre-update z-score. -/
theorem predictTrained_category (cfg : ZConfig) (s : ZState) (r : Reading) :
    (predictTrained cfg s r).1.category =
      (classifyReading cfg (updateStats cfg s r.value r.timestamp) r.value
        (zScoreOf s r.value)).1 := rfl

/-- The returned anomaly score is `min (z/threshold) 1`. -/
theorem predictTrained_anomaly_score (cfg : ZConfig) (s : ZState) (r : Reading) :
    (predictTrained cfg s r).1.anomaly_score =
      min (zScoreOf s r.value / cfg.z_threshold) 1 := rfl

/-- Branch extraction: extreme outliers are classified `alert`. -/
theorem classifyReading_alert (cfg : ZConfig) (s : ZState) (v z : ℝ)
    (h : z > cfg.z_threshold * 2) : (classifyReading cfg s v z).1 = "alert" := by
  simp [classifyReading, h]

/-- Branch extraction: moderate outliers are classified `noise`. -/
theorem classifyReading_noise_high (cfg : ZConfig) (s : ZState) (v z : ℝ)
    (h1 : ¬ z > cfg.z_threshold * 2) (h2 : z > cfg.z_threshold) :
    (classifyReading cfg s v z).1 = "noise" := by
  simp [classifyReading, h1, h2]

/-- Branch extraction: the variance-inflation branch classifies `noise`. -/
theorem classifyReading_noise_var (cfg : ZConfig) (s : ZState) (v z : ℝ)
    (h1 : ¬ z > cfg.z_threshold * 2) (h2 : ¬ z > cfg.z_threshold)
    (h3 : ¬ (10 ≤ s.last_values.length ∧ driftLevel s > cfg.drift_threshold))
    (h4 : 5 ≤ s.last_values.length)
    (h5 : npStd (lastN 5 s.last_values) > s.std * (1 + cfg.noise_threshold)) :
    (classifyReading cfg s v z).1 = "noise" := by
  simp [classifyReading, h1, h2, h3, h4, h5]

/-- Branch extraction: with every check negative the reading is `normal`. -/
theorem classifyReading_normal (cfg : ZConfig) (s : ZState) (v z : ℝ)
    (h1 : ¬ z > cfg.z_threshold * 2) (h2 : ¬ z > cfg.z_threshold)
    (h3 : ¬ (10 ≤ s.last_values.length ∧ driftLevel s > cfg.drift_threshold))
    (h4 : ¬ (5 ≤ s.last_values.length ∧
      npStd (lastN 5 s.last_values) > s.std * (1 + cfg.noise_threshold))) :
    (classifyReading cfg s v z).1 = "normal" := by
  simp [classifyReading, h1, h2, h3, h4]

/-- Below the doubled threshold the classification never reaches `alert`,
so its severity rank is at most that of `noise`. -/
theorem classifyReading_rank_le_two (cfg : ZConfig) (s : ZState) (v z : ℝ)
    (h1 : ¬ z > cfg.z_threshold * 2) :
    severityRank (classifyReading cfg s v z).1 ≤ 2 := by
  simp only [classifyReading, h1, if_false]
  split_ifs <;> simp [severityRank]

/-- Severity ranks are bounded by the rank of `alert`. -/
theorem severityRank_le_three (c : String) : severityRank c ≤ 3 := by
  unfold severityRank
  split_ifs <;> omega

end ZScore

/-- Normalization of the concrete record: all four fields are present and
in range, so validation succeeds (values survive three-decimal rounding
unchanged). -/
theorem validate_failingRecord :
    Preprocess.validate_and_normalize failingRecord =
      some ⟨"2024-01-01T00:00:00", "dev-1", 160, 10, 40, 1/10⟩ := by
  simp [Preprocess.validate_and_normalize, Preprocess.checkField,
    failingRecord, Detect.getSensor, Preprocess.round3, round_eq]
  norm_num

/-! # Claim theorems -/

/-- C1: for every anomaly with severity `critical` handed to the
escalation dispatcher, the action kinds executed are exactly
`[log, alert, escalate, emergency]` in that order, and a failure of any
one action (the oracle `fails`, covering in particular `alert`) does not
prevent the remaining actions from being executed: the invocation trace of
`handle_anomalies` is the concatenation of the per-anomaly ladders and
does not depend on `fails` at all, and the critical ladder is the full
four-action list. -/
theorem critical_ladder_runs_fully (fails : String → Bool)
    (anomalies : List Actions.Anomaly) (a : Actions.Anomaly)
    (ha : a ∈ anomalies) (hc : Actions.severityOf a = "critical") :
    (Actions.handle_anomalies fails anomalies).1 =
      anomalies.flatMap (fun x => Actions.escalation_levels (Actions.severityOf x)) ∧
    Actions.escalation_levels (Actions.severityOf a) =
      ["log", "alert", "escalate", "emergency"] ∧
    ["log", "alert", "escalate", "emergency"] ∈
      anomalies.map (fun x => Actions.escalation_levels (Actions.severityOf x)) := by
  have hladder : Actions.escalation_levels (Actions.severityOf a) =
      ["log", "alert", "escalate", "emergency"] := by
    rw [hc]
    rfl
  exact ⟨Actions.handle_anomalies_fst fails anomalies, hladder,
    List.mem_map.mpr ⟨a, ha, hladder⟩⟩

/-- Witness for C1: a critical anomaly dispatched under an oracle that
makes the `alert` action fail still has the full ladder executed. -/
theorem critical_ladder_runs_fully_witness :
    (Actions.handle_anomalies (fun t => t = "alert")
        [{ severity := some "critical" }]).1 =
      [{ severity := some "critical" : Actions.Anomaly }].flatMap
        (fun x => Actions.escalation_levels (Actions.severityOf x)) ∧
    Actions.escalation_levels
        (Actions.severityOf { severity := some "critical" }) =
      ["log", "alert", "escalate", "emergency"] ∧
    ["log", "alert", "escalate", "emergency"] ∈
      [{ severity := some "critical" : Actions.Anomaly }].map
        (fun x => Actions.escalation_levels (Actions.severityOf x)) :=
  critical_ladder_runs_fully (fun t => t = "alert")
    [{ severity := some "critical" }] { severity := some "critical" }
    (List.mem_singleton.mpr rfl) rfl

/-- C2 (code bug exhibit): the claim expects a `severity = critical`
detection for the `pm2_5` field on a validated record with
`pm2_5 = 160`, but because the threshold chain of
`detect_basic_thresholds` is indented at loop level (it runs once, after
the loop, on the last-present field's value and the `vibration`
thresholds), the record
`{pm2_5: 160, pm10: 10, dBA: 40, vibration: 0.1}` — which passes
validation — produces no detection at all. -/
theorem pm25_severe_reading_yields_no_detection :
    (Preprocess.validate_and_normalize failingRecord).isSome = true ∧
    Detect.detect_basic_thresholds failingRecord = some [] := by
  constructor
  · rw [validate_failingRecord]
    rfl
  · simp [Detect.detect_basic_thresholds, Detect.sensor_thresholds,
      Detect.getSensor, failingRecord]
    norm_num

/-- C3: a message whose payload cannot be parsed, or whose record fails
validation/normalization, is acknowledged exactly once, never negatively
acknowledged or requeued, and produces no anomaly record. -/
theorem rejected_message_acked_once (env : Consumer.CbEnv)
    (h : env.parsed = none ∨
      ∃ r, env.parsed = some r ∧ Preprocess.validate_and_normalize r = none) :
    Consumer.callback env =
      { acks := 1, nacksRequeue := 0, anomalyRecords := 0 } := by
  rcases h with h | ⟨r, hp, hv⟩
  · simp [Consumer.callback, h]
  · simp [Consumer.callback, hp, hv]

/-- Witness for C3: an unparseable payload is acked once, and a parsed
record missing its `pm2_5` field is acked once. -/
theorem rejected_message_acked_once_witness :
    Consumer.callback
        { parsed := none, storeSensorRaises := false, sensorDataId := none,
          detectOutcome := some [], storeAnomalyRaises := false } =
      { acks := 1, nacksRequeue := 0, anomalyRecords := 0 } ∧
    Consumer.callback
        { parsed := some ⟨some "t", some "d", none, some 1, some 40, some 0⟩,
          storeSensorRaises := false, sensorDataId := some 1,
          detectOutcome := some [], storeAnomalyRaises := false } =
      { acks := 1, nacksRequeue := 0, anomalyRecords := 0 } :=
  ⟨rejected_message_acked_once _ (Or.inl rfl),
   rejected_message_acked_once _ (Or.inr ⟨_, rfl, rfl⟩)⟩

/-- C4: a message that passes validation and whose subsequent processing
raises an exception escaping the callback's inner handlers is never
positively acknowledged and receives exactly one negative acknowledgment
with requeue enabled. -/
theorem escaped_exception_nacks_once (env : Consumer.CbEnv)
    (r : Detect.RawRecord) (c : Preprocess.CleanRecord)
    (hp : env.parsed = some r)
    (hv : Preprocess.validate_and_normalize r = some c)
    (he : Consumer.postValidationEscapes env = true) :
    (Consumer.callback env).acks = 0 ∧
    (Consumer.callback env).nacksRequeue = 1 := by
  simp only [Consumer.postValidationEscapes, Bool.decide_or, Bool.or_eq_true,
    decide_eq_true_eq] at he
  rcases he with he | ⟨hne, hid, hst⟩
  · simp [Consumer.callback, hp, hv, he]
  · by_cases hs : env.storeSensorRaises <;>
      simp [Consumer.callback, hp, hv, hne, hid, hst, hs]

/-- Witness for C4: a validated message for which the sensor-data store
raises is nacked once and never acked. -/
theorem escaped_exception_nacks_once_witness :
    (Consumer.callback
        { parsed := some failingRecord, storeSensorRaises := true,
          sensorDataId := some 1, detectOutcome := some [],
          storeAnomalyRaises := false }).acks = 0 ∧
    (Consumer.callback
        { parsed := some failingRecord, storeSensorRaises := true,
          sensorDataId := some 1, detectOutcome := some [],
          storeAnomalyRaises := false }).nacksRequeue = 1 :=
  escaped_exception_nacks_once _ failingRecord
    ⟨"2024-01-01T00:00:00", "dev-1", 160, 10, 40, 1/10⟩
    rfl validate_failingRecord rfl

/-- C5: a sensor key with no trained model gets, from the orchestrator's
`predict` and from the z-score strategy's `predict`, the fallback
prediction `category = normal`, `confidence = 0.1`, `anomaly_score = 0`
with a truthy `fallback` marker in the details; both functions are total,
so no exception is raised. -/
theorem untrained_key_gets_fallback (st : Orch.OrchState) (sid : String)
    (r : Orch.QReading) (cfg : ZScore.ZConfig)
    (models : String → Option ZScore.ZState) (zsid : String)
    (zr : ZScore.Reading)
    (h1 : st.sensor_configs sid = none) (h2 : models zsid = none) :
    Orch.predict st sid r =
      { category := "normal", confidence := 1/10, anomaly_score := 0,
        details := [("reason", Orch.DVal.str "No trained model"),
                    ("fallback", Orch.DVal.bool true)] } ∧
    (ZScore.predict cfg models zsid zr).1 = ("normal", 1/10, 0, true) := by
  constructor
  · simp [Orch.predict, h1, Orch.fallback_prediction]
  · simp [ZScore.predict, h2]

/-- Witness for C5: a concrete orchestrator state and strategy model map
that know no sensor key return the fallback prediction for key `s1`. -/
theorem untrained_key_gets_fallback_witness :
    Orch.predict
        { detectors := [], ensemble_weights := [], ensemble_mode := false,
          confidence_threshold := 1/2, sensor_configs := fun _ => none }
        "s1" { timestamp := "t", value := 0 } =
      { category := "normal", confidence := 1/10, anomaly_score := 0,
        details := [("reason", Orch.DVal.str "No trained model"),
                    ("fallback", Orch.DVal.bool true)] } ∧
    (ZScore.predict ZScore.defaultZConfig (fun _ => none) "s1"
        { timestamp := "t", value := 0 }).1 = ("normal", 1/10, 0, true) :=
  untrained_key_gets_fallback _ "s1" _ ZScore.defaultZConfig _ "s1" _ rfl rfl

/-- C8 counterexample: with ensemble mode enabled, a sensor whose trained
`zscore` model is not named in the weight table gathers no ensemble
member, and `predict_ensemble` returns the static fallback prediction —
not the single-strategy `predict` result, which the claim says it falls
back to (here `predict` returns the backend's `alert` prediction). -/
theorem ensemble_empty_is_not_single_predict :
    Orch.predict_ensemble mismatchedEnsembleState "s1" ⟨"t", 0⟩ =
      Orch.fallback_prediction "No ensemble predictions available" ∧
    Orch.predict mismatchedEnsembleState "s1" ⟨"t", 0⟩ = ⟨"alert", 9/10, 1, []⟩ ∧
    Orch.predict_ensemble mismatchedEnsembleState "s1" ⟨"t", 0⟩ ≠
      Orch.predict mismatchedEnsembleState "s1" ⟨"t", 0⟩ := by
  have h1 : Orch.predict_ensemble mismatchedEnsembleState "s1" ⟨"t", 0⟩ =
      Orch.fallback_prediction "No ensemble predictions available" := by
    simp [Orch.predict_ensemble, mismatchedEnsembleState, Orch.ensemble_members,
      Orch.lookupD, List.find?]
  have h2 : Orch.predict mismatchedEnsembleState "s1" ⟨"t", 0⟩ =
      ⟨"alert", 9/10, 1, []⟩ := by
    simp [Orch.predict, mismatchedEnsembleState, Orch.lookupD, List.find?]
    norm_num
  refine ⟨h1, h2, ?_⟩
  rw [h1, h2]
  simp [Orch.fallback_prediction]

/-- C8 (amended): with ensemble mode enabled, when at least one configured
and trained detector contributes, the returned category is a contributed
category whose summed per-detector weight is maximal among the contributed
categories, and (when the total weight is positive) the returned
confidence and anomaly score are the weight-averaged member values; when
no member contributes, the result is the static low-confidence fallback
prediction, not the single-strategy `predict` result. -/
theorem ensemble_selection_amended (st : Orch.OrchState) (sid : String)
    (r : Orch.QReading) (hmode : st.ensemble_mode = true) :
    (Orch.ensemble_members st sid r = [] →
      Orch.predict_ensemble st sid r =
        Orch.fallback_prediction "No ensemble predictions available") ∧
    (Orch.ensemble_members st sid r ≠ [] →
      (Orch.predict_ensemble st sid r).category ∈
        (Orch.ensemble_members st sid r).map (fun e => e.2.category) ∧
      (∀ c ∈ (Orch.ensemble_members st sid r).map (fun e => e.2.category),
        Orch.summedWeight (Orch.ensemble_members st sid r) st.ensemble_weights c ≤
          Orch.summedWeight (Orch.ensemble_members st sid r) st.ensemble_weights
            (Orch.predict_ensemble st sid r).category) ∧
      (0 < Orch.totalWeightOf (Orch.ensemble_members st sid r) st.ensemble_weights →
        (Orch.predict_ensemble st sid r).confidence =
          Orch.weightedConfOf (Orch.ensemble_members st sid r) st.ensemble_weights /
            Orch.totalWeightOf (Orch.ensemble_members st sid r) st.ensemble_weights ∧
        (Orch.predict_ensemble st sid r).anomaly_score =
          Orch.weightedScoreOf (Orch.ensemble_members st sid r) st.ensemble_weights /
            Orch.totalWeightOf (Orch.ensemble_members st sid r) st.ensemble_weights)) := by
  constructor
  · intro hempty
    simp [Orch.predict_ensemble, hmode, hempty]
  · intro hne
    have hpe : Orch.predict_ensemble st sid r =
        Orch.combine_predictions (Orch.ensemble_members st sid r)
          st.ensemble_weights := by
      simp [Orch.predict_ensemble, hmode, hne]
    have hcatsne : Orch.catsAfter st.ensemble_weights []
        (Orch.ensemble_members st sid r) ≠ [] := by
      cases hp : Orch.ensemble_members st sid r with
      | nil => exact absurd hp hne
      | cons e rest =>
        rw [Orch.catsAfter]
        exact Orch.catsAfter_ne_nil _ rest _ (Orch.bump_ne_nil _ _ _)
    obtain ⟨m, hfm⟩ : ∃ m, Orch.firstMax (Orch.catsAfter st.ensemble_weights []
        (Orch.ensemble_members st sid r)) = some m := by
      cases hcat : Orch.catsAfter st.ensemble_weights []
          (Orch.ensemble_members st sid r) with
      | nil => exact absurd hcat hcatsne
      | cons a t => exact ⟨_, rfl⟩
    have hcomb : Orch.combine_predictions (Orch.ensemble_members st sid r)
        st.ensemble_weights =
        ⟨m.1,
         if Orch.totalWeightOf (Orch.ensemble_members st sid r)
              st.ensemble_weights > 0 then
            Orch.weightedConfOf (Orch.ensemble_members st sid r)
                st.ensemble_weights /
              Orch.totalWeightOf (Orch.ensemble_members st sid r)
                st.ensemble_weights
          else 0,
         if Orch.totalWeightOf (Orch.ensemble_members st sid r)
              st.ensemble_weights > 0 then
            Orch.weightedScoreOf (Orch.ensemble_members st sid r)
                st.ensemble_weights /
              Orch.totalWeightOf (Orch.ensemble_members st sid r)
                st.ensemble_weights
          else 0,
         [("ensemble", Orch.DVal.bool true)]⟩ := by
      simp [Orch.combine_predictions, Orch.combineTotals_eq, hfm]
    have hmspec := Orch.firstMax_spec _ m hfm
    have hnodup : ((Orch.catsAfter st.ensemble_weights []
        (Orch.ensemble_members st sid r)).map (fun e => e.1)).Nodup :=
      Orch.keys_nodup_catsAfter st.ensemble_weights _ [] (by simp)
    have hwm : Orch.summedWeight (Orch.ensemble_members st sid r)
        st.ensemble_weights m.1 = m.2 := by
      have h1 := Orch.weightOf_catsAfter st.ensemble_weights m.1
        (Orch.ensemble_members st sid r) []
      have h2 := Orch.weightOf_of_mem m _ hnodup hmspec.1
      rw [h2] at h1
      simpa [Orch.weightOf] using h1.symm
    refine ⟨?_, ?_, ?_⟩
    · rw [hpe, hcomb]
      have := hmspec.1
      have hk : m.1 ∈ (Orch.catsAfter st.ensemble_weights []
          (Orch.ensemble_members st sid r)).map (fun e => e.1) :=
        List.mem_map.mpr ⟨m, hmspec.1, rfl⟩
      rcases (Orch.mem_keys_catsAfter st.ensemble_weights m.1
        (Orch.ensemble_members st sid r) []).mp hk with h | h
      · simp at h
      · exact h
    · intro c hc
      rw [hpe, hcomb]
      have hck : c ∈ (Orch.catsAfter st.ensemble_weights []
          (Orch.ensemble_members st sid r)).map (fun e => e.1) :=
        (Orch.mem_keys_catsAfter st.ensemble_weights c
          (Orch.ensemble_members st sid r) []).mpr (Or.inr hc)
      obtain ⟨x, hx, hxc⟩ := List.mem_map.mp hck
      have hwc : Orch.summedWeight (Orch.ensemble_members st sid r)
          st.ensemble_weights c = x.2 := by
        have h1 := Orch.weightOf_catsAfter st.ensemble_weights c
          (Orch.ensemble_members st sid r) []
        have h2 := Orch.weightOf_of_mem x _ hnodup hx
        rw [hxc] at h2
        rw [h2] at h1
        simpa [Orch.weightOf] using h1.symm
      rw [hwc, hwm]
      exact hmspec.2 x hx
    · intro htw
      rw [hpe, hcomb]
      simp [htw]

/-- Witness for C8 (amended): two contributing detectors with weights
`zscore ↦ 0.3`, `stl ↦ 0.4` yield a returned category among the
contributed ones. -/
theorem ensemble_selection_amended_witness :
    (Orch.predict_ensemble
        { detectors :=
            [("zscore", ⟨fun _ => true, fun _ _ => some ⟨"alert", 9/10, 1, []⟩⟩),
             ("stl", ⟨fun _ => true, fun _ _ => some ⟨"drift", 1/2, 1/2, []⟩⟩)],
          ensemble_weights := [("zscore", 3/10), ("stl", 2/5)],
          ensemble_mode := true, confidence_threshold := 1/2,
          sensor_configs := fun _ => some "zscore" }
        "s1" ⟨"t", 0⟩).category ∈
      (Orch.ensemble_members
        { detectors :=
            [("zscore", ⟨fun _ => true, fun _ _ => some ⟨"alert", 9/10, 1, []⟩⟩),
             ("stl", ⟨fun _ => true, fun _ _ => some ⟨"drift", 1/2, 1/2, []⟩⟩)],
          ensemble_weights := [("zscore", 3/10), ("stl", 2/5)],
          ensemble_mode := true, confidence_threshold := 1/2,
          sensor_configs := fun _ => some "zscore" }
        "s1" ⟨"t", 0⟩).map (fun e => e.2.category) :=
  ((ensemble_selection_amended _ "s1" ⟨"t", 0⟩ rfl).2
    (by simp [Orch.ensemble_members, Orch.lookupD, List.find?])).1

/-- C6: on a trained baseline state (at least ten stored values, a
nonnegative stored std — both guaranteed by `fit`), the z-score strategy's
`predict` classifies exactly by the specified cascade: with
`z = |value - mean| / std` (0 when std = 0), `z > 2*threshold` → alert/0.9;
else `z > threshold` → noise/0.7; else short-vs-long window relative mean
difference above `drift_threshold` → drift/0.6; else recent-5 std above
the rolling std times `(1 + noise_threshold)` → noise/0.5; else
normal/0.8; and the returned `anomaly_score` is `min (z/threshold) 1`. -/
theorem zscore_predict_matches_spec_cascade (cfg : ZScore.ZConfig)
    (s : ZScore.ZState) (r : ZScore.Reading)
    (hstd : 0 ≤ s.std) (hlen : 10 ≤ s.last_values.length) :
    ((ZScore.predictTrained cfg s r).1.category,
     (ZScore.predictTrained cfg s r).1.confidence,
     (ZScore.predictTrained cfg s r).1.anomaly_score) =
      ZScore.specBaselinePredict cfg s r := by
  have hlen10 := ZScore.updateStats_len_ge cfg s r.value r.timestamp hlen
  have hlen5 : 5 ≤ (ZScore.updateStats cfg s r.value r.timestamp).last_values.length :=
    le_trans (by norm_num) hlen10
  have hz : ZScore.zScoreOf s r.value =
      (if s.std = 0 then 0 else |r.value - s.mean| / s.std) := by
    rcases eq_or_lt_of_le hstd with h | h
    · simp [ZScore.zScoreOf, ← h]
    · simp [ZScore.zScoreOf, h, h.ne']
  simp only [ZScore.predictTrained, ZScore.specBaselinePredict,
    ZScore.classifyReading, ZScore.driftLevel, hz,
    ← ZScore.updateStats_mean, ← ZScore.updateStats_std,
    mul_comm (2 : ℝ) cfg.z_threshold,
    and_iff_right hlen10, and_iff_right hlen5]
  split_ifs <;> rfl

/-- Witness for C6: the cascade equality holds on the trained state of a
constant window of ten readings of value 5. -/
theorem zscore_predict_matches_spec_cascade_witness :
    ((ZScore.predictTrained ZScore.defaultZConfig
        { mean := 5, std := 0, vmin := 5, vmax := 5,
          last_values := List.replicate 10 (5 : ℝ),
          last_timestamps := List.replicate 10 "t",
          total_readings := 10 } ⟨"t11", 5⟩).1.category,
     (ZScore.predictTrained ZScore.defaultZConfig
        { mean := 5, std := 0, vmin := 5, vmax := 5,
          last_values := List.replicate 10 (5 : ℝ),
          last_timestamps := List.replicate 10 "t",
          total_readings := 10 } ⟨"t11", 5⟩).1.confidence,
     (ZScore.predictTrained ZScore.defaultZConfig
        { mean := 5, std := 0, vmin := 5, vmax := 5,
          last_values := List.replicate 10 (5 : ℝ),
          last_timestamps := List.replicate 10 "t",
          total_readings := 10 } ⟨"t11", 5⟩).1.anomaly_score) =
      ZScore.specBaselinePredict ZScore.defaultZConfig
        { mean := 5, std := 0, vmin := 5, vmax := 5,
          last_values := List.replicate 10 (5 : ℝ),
          last_timestamps := List.replicate 10 "t",
          total_readings := 10 } ⟨"t11", 5⟩ :=
  zscore_predict_matches_spec_cascade ZScore.defaultZConfig _ _ le_rfl
    (by simp)

/-- C7 (amended): for two readings evaluated against the same trained
baseline state with z-scores `z1 < z2`, the returned `anomaly_score`
(`min (z/threshold) 1`) is non-decreasing in z unconditionally, and the
severity rank (normal ≤ drift ≤ noise ≤ alert) is non-decreasing whenever
`z2` exceeds the z-threshold (the z-driven branches); below the threshold
the category depends on the updated window contents, not on z alone, and
rank monotonicity can fail (see the counterexample). -/
theorem zscore_monotone_in_deviation (cfg : ZScore.ZConfig)
    (s : ZScore.ZState) (r1 r2 : ZScore.Reading)
    (hT : 0 < cfg.z_threshold)
    (h12 : ZScore.zScoreOf s r1.value < ZScore.zScoreOf s r2.value) :
    (ZScore.predictTrained cfg s r1).1.anomaly_score ≤
      (ZScore.predictTrained cfg s r2).1.anomaly_score ∧
    (cfg.z_threshold < ZScore.zScoreOf s r2.value →
      ZScore.severityRank (ZScore.predictTrained cfg s r1).1.category ≤
        ZScore.severityRank (ZScore.predictTrained cfg s r2).1.category) := by
  constructor
  · rw [ZScore.predictTrained_anomaly_score, ZScore.predictTrained_anomaly_score]
    exact min_le_min ((div_le_div_iff_of_pos_right hT).mpr h12.le) le_rfl
  · intro h2T
    by_cases hA2 : ZScore.zScoreOf s r2.value > cfg.z_threshold * 2
    · rw [ZScore.predictTrained_category, ZScore.predictTrained_category,
        ZScore.classifyReading_alert _ _ _ _ hA2]
      have h3 := ZScore.severityRank_le_three
        (ZScore.classifyReading cfg
          (ZScore.updateStats cfg s r1.value r1.timestamp) r1.value
          (ZScore.zScoreOf s r1.value)).1
      simpa [ZScore.severityRank] using h3
    · have hA1 : ¬ ZScore.zScoreOf s r1.value > cfg.z_threshold * 2 :=
        fun hcon => hA2 (lt_trans hcon h12)
      rw [ZScore.predictTrained_category, ZScore.predictTrained_category,
        ZScore.classifyReading_noise_high _ _ _ _ hA2 h2T]
      have h2 := ZScore.classifyReading_rank_le_two cfg
        (ZScore.updateStats cfg s r1.value r1.timestamp) r1.value
        (ZScore.zScoreOf s r1.value) hA1
      simpa [ZScore.severityRank] using h2

/-- Witness for C7 (amended): against a unit-std state, readings with
z-scores 1 and 4 have non-decreasing anomaly score and severity rank. -/
theorem zscore_monotone_in_deviation_witness :
    (ZScore.predictTrained ZScore.defaultZConfig
        { mean := 0, std := 1, vmin := 0, vmax := 0, last_values := [],
          last_timestamps := [], total_readings := 0 } ⟨"u1", 1⟩).1.anomaly_score ≤
      (ZScore.predictTrained ZScore.defaultZConfig
        { mean := 0, std := 1, vmin := 0, vmax := 0, last_values := [],
          last_timestamps := [], total_readings := 0 } ⟨"u2", 4⟩).1.anomaly_score ∧
    (ZScore.defaultZConfig.z_threshold < ZScore.zScoreOf
        { mean := 0, std := 1, vmin := 0, vmax := 0, last_values := [],
          last_timestamps := [], total_readings := 0 } (4 : ℝ) →
      ZScore.severityRank (ZScore.predictTrained ZScore.defaultZConfig
          { mean := 0, std := 1, vmin := 0, vmax := 0, last_values := [],
            last_timestamps := [], total_readings := 0 } ⟨"u1", 1⟩).1.category ≤
        ZScore.severityRank (ZScore.predictTrained ZScore.defaultZConfig
          { mean := 0, std := 1, vmin := 0, vmax := 0, last_values := [],
            last_timestamps := [], total_readings := 0 } ⟨"u2", 4⟩).1.category) :=
  zscore_monotone_in_deviation ZScore.defaultZConfig _ ⟨"u1", 1⟩ ⟨"u2", 4⟩
    (by norm_num [ZScore.defaultZConfig])
    (by norm_num [ZScore.zScoreOf, abs_of_nonneg])

/-- C7 counterexample: on the trained state produced by `fit` from
`cexReadings` (mean `-5/11`, std `√(250/121)`), the reading `0` has a
strictly smaller z-score than the reading `1`, yet `0` is classified
`noise` (severity rank 2, variance inflation fires) while `1` is
classified `normal` (rank 0): the severity rank is not monotone in the
z-score below the threshold. -/
theorem zscore_severity_not_monotone_in_z :
    ZScore.fit ZScore.defaultZConfig cexReadings = some cexState ∧
    ZScore.zScoreOf cexState 0 < ZScore.zScoreOf cexState 1 ∧
    ZScore.severityRank
      ((ZScore.predictTrained ZScore.defaultZConfig cexState
        ⟨"t12", 0⟩).1.category) = 2 ∧
    ZScore.severityRank
      ((ZScore.predictTrained ZScore.defaultZConfig cexState
        ⟨"t12", 1⟩).1.category) = 0 := by
  have hsp : (0 : ℝ) < Real.sqrt (250/121) := Real.sqrt_pos.mpr (by norm_num)
  -- the training series and its statistics
  have hvals : cexReadings.map (fun r => r.value) =
      [(1 : ℝ), -2, 0, -1, -2, -2, 0, -1, 0, 3, -1] := by
    simp [cexReadings]
  have htss : cexReadings.map (fun r => r.timestamp) =
      ["t1", "t2", "t3", "t4", "t5", "t6", "t7", "t8", "t9", "t10", "t11"] := by
    simp [cexReadings]
  have hfit : ZScore.fit ZScore.defaultZConfig cexReadings = some cexState := by
    have hie : cexReadings.isEmpty = false := by simp [cexReadings]
    have hln : ¬ cexReadings.length < ZScore.defaultZConfig.min_readings := by
      simp [cexReadings, ZScore.defaultZConfig]
    simp only [ZScore.fit, hie, Bool.false_eq_true, if_false, hln, hvals, htss,
      cexState, Option.some.injEq, ZScore.ZState.mk.injEq]
    refine ⟨by norm_num [ZScore.npMean], ?_, ?_, ?_, ?_, ?_, ?_⟩
    · rw [ZScore.npStd]
      congr 1
      norm_num [ZScore.npVar, ZScore.npMean]
    · norm_num [List.foldl, min_def]
    · norm_num [List.foldl, max_def]
    · simp [ZScore.lastN, ZScore.defaultZConfig]
    · simp [ZScore.lastN, ZScore.defaultZConfig]
    · simp [cexReadings]
  -- the two z-scores
  have hz1eq : ZScore.zScoreOf cexState 0 =
      |(0 : ℝ) - -(5/11)| / Real.sqrt (250/121) := by
    simp only [ZScore.zScoreOf, cexState]
    rw [if_pos hsp]
  have hz2eq : ZScore.zScoreOf cexState 1 =
      |(1 : ℝ) - -(5/11)| / Real.sqrt (250/121) := by
    simp only [ZScore.zScoreOf, cexState]
    rw [if_pos hsp]
  have ea1 : |(0 : ℝ) - -(5/11)| = 5/11 := by
    rw [show ((0 : ℝ) - -(5/11)) = 5/11 by norm_num]
    exact abs_of_nonneg (by norm_num)
  have ea2 : |(1 : ℝ) - -(5/11)| = 16/11 := by
    rw [show ((1 : ℝ) - -(5/11)) = 16/11 by norm_num]
    exact abs_of_nonneg (by norm_num)
  have horder : ZScore.zScoreOf cexState 0 < ZScore.zScoreOf cexState 1 := by
    rw [hz1eq, hz2eq, ea1, ea2]
    exact (div_lt_div_iff_of_pos_right hsp).mpr (by norm_num)
  -- both readings stay below the z-threshold
  have hz1_3 : ¬ ZScore.zScoreOf cexState 0 > ZScore.defaultZConfig.z_threshold := by
    apply not_lt.mpr
    rw [hz1eq]
    have h := ZScore.abs_div_sqrt_le_of_sq_le ((0 : ℝ) - -(5/11)) (250/121) 3
      (by norm_num) (by norm_num) (by norm_num)
    simpa [ZScore.defaultZConfig] using h
  have hz1_6 : ¬ ZScore.zScoreOf cexState 0 >
      ZScore.defaultZConfig.z_threshold * 2 := by
    apply not_lt.mpr
    rw [hz1eq]
    have h := ZScore.abs_div_sqrt_le_of_sq_le ((0 : ℝ) - -(5/11)) (250/121) 6
      (by norm_num) (by norm_num) (by norm_num)
    calc |(0 : ℝ) - -(5/11)| / Real.sqrt (250/121) ≤ 6 := h
    _ = ZScore.defaultZConfig.z_threshold * 2 := by norm_num [ZScore.defaultZConfig]
  have hz2_3 : ¬ ZScore.zScoreOf cexState 1 > ZScore.defaultZConfig.z_threshold := by
    apply not_lt.mpr
    rw [hz2eq]
    have h := ZScore.abs_div_sqrt_le_of_sq_le ((1 : ℝ) - -(5/11)) (250/121) 3
      (by norm_num) (by norm_num) (by norm_num)
    simpa [ZScore.defaultZConfig] using h
  have hz2_6 : ¬ ZScore.zScoreOf cexState 1 >
      ZScore.defaultZConfig.z_threshold * 2 := by
    apply not_lt.mpr
    rw [hz2eq]
    have h := ZScore.abs_div_sqrt_le_of_sq_le ((1 : ℝ) - -(5/11)) (250/121) 6
      (by norm_num) (by norm_num) (by norm_num)
    calc |(1 : ℝ) - -(5/11)| / Real.sqrt (250/121) ≤ 6 := h
    _ = ZScore.defaultZConfig.z_threshold * 2 := by norm_num [ZScore.defaultZConfig]
  -- the updated window after absorbing the reading 0
  have hlv1 : (ZScore.updateStats ZScore.defaultZConfig cexState 0
      "t12").last_values = [(1 : ℝ), -2, 0, -1, -2, -2, 0, -1, 0, 3, -1, 0] := by
    simp [ZScore.updateStats, cexState, ZScore.defaultZConfig]
  have hm1 : (ZScore.updateStats ZScore.defaultZConfig cexState 0 "t12").mean =
      -(5/12) := by
    rw [ZScore.updateStats_mean, hlv1]
    norm_num [ZScore.npMean]
  have hst1 : (ZScore.updateStats ZScore.defaultZConfig cexState 0 "t12").std =
      Real.sqrt (275/144) := by
    rw [ZScore.updateStats_std, hlv1, ZScore.npStd]
    congr 1
    norm_num [ZScore.npVar, ZScore.npMean]
  have hdl1 : ZScore.driftLevel
      (ZScore.updateStats ZScore.defaultZConfig cexState 0 "t12") = 1/25 := by
    rw [ZScore.driftLevel, hlv1, hm1]
    rw [show ZScore.lastN 10 [(1 : ℝ), -2, 0, -1, -2, -2, 0, -1, 0, 3, -1, 0] =
      [(0 : ℝ), -1, -2, -2, 0, -1, 0, 3, -1, 0] from by simp [ZScore.lastN]]
    rw [show ZScore.npMean [(0 : ℝ), -1, -2, -2, 0, -1, 0, 3, -1, 0] = -(2/5)
      from by norm_num [ZScore.npMean]]
    rw [show |(-(2/5) : ℝ) - -(5/12)| = 1/60 from by
      rw [show ((-(2/5) : ℝ) - -(5/12)) = 1/60 by norm_num]
      exact abs_of_nonneg (by norm_num)]
    rw [show |(-(5/12) : ℝ)| = 5/12 from by
      rw [abs_neg]
      exact abs_of_nonneg (by norm_num)]
    rw [show ((5 : ℝ)/12) ⊔ (1/1000000) = 5/12 from by
      rw [max_eq_left]
      norm_num]
    norm_num
  have hdrift1 : ¬ (10 ≤ (ZScore.updateStats ZScore.defaultZConfig cexState 0
        "t12").last_values.length ∧
      ZScore.driftLevel (ZScore.updateStats ZScore.defaultZConfig cexState 0
        "t12") > ZScore.defaultZConfig.drift_threshold) := by
    intro h
    have := h.2
    rw [hdl1] at this
    norm_num [ZScore.defaultZConfig] at this
  have hlen5a : 5 ≤ (ZScore.updateStats ZScore.defaultZConfig cexState 0
      "t12").last_values.length := by
    rw [hlv1]
    norm_num
  have hnoise1 : ZScore.npStd (ZScore.lastN 5
        (ZScore.updateStats ZScore.defaultZConfig cexState 0
          "t12").last_values) >
      (ZScore.updateStats ZScore.defaultZConfig cexState 0 "t12").std *
        (1 + ZScore.defaultZConfig.noise_threshold) := by
    rw [hlv1, hst1]
    rw [show ZScore.lastN 5 [(1 : ℝ), -2, 0, -1, -2, -2, 0, -1, 0, 3, -1, 0] =
      [(-1 : ℝ), 0, 3, -1, 0] from by simp [ZScore.lastN]]
    rw [show ZScore.npStd [(-1 : ℝ), 0, 3, -1, 0] = Real.sqrt (54/25) from by
      rw [ZScore.npStd]
      congr 1
      norm_num [ZScore.npVar, ZScore.npMean]]
    rw [show (1 : ℝ) + ZScore.defaultZConfig.noise_threshold = 21/20 from by
      norm_num [ZScore.defaultZConfig]]
    exact ZScore.sqrt_mul_lt_sqrt_of_sq_lt (275/144) (54/25) (21/20)
      (by norm_num) (by norm_num) (by norm_num)
  -- the updated window after absorbing the reading 1
  have hlv2 : (ZScore.updateStats ZScore.defaultZConfig cexState 1
      "t12").last_values = [(1 : ℝ), -2, 0, -1, -2, -2, 0, -1, 0, 3, -1, 1] := by
    simp [ZScore.updateStats, cexState, ZScore.defaultZConfig]
  have hm2 : (ZScore.updateStats ZScore.defaultZConfig cexState 1 "t12").mean =
      -(1/3) := by
    rw [ZScore.updateStats_mean, hlv2]
    norm_num [ZScore.npMean]
  have hst2 : (ZScore.updateStats ZScore.defaultZConfig cexState 1 "t12").std =
      Real.sqrt (37/18) := by
    rw [ZScore.updateStats_std, hlv2, ZScore.npStd]
    congr 1
    norm_num [ZScore.npVar, ZScore.npMean]
  have hdl2 : ZScore.driftLevel
      (ZScore.updateStats ZScore.defaultZConfig cexState 1 "t12") = 1/10 := by
    rw [ZScore.driftLevel, hlv2, hm2]
    rw [show ZScore.lastN 10 [(1 : ℝ), -2, 0, -1, -2, -2, 0, -1, 0, 3, -1, 1] =
      [(0 : ℝ), -1, -2, -2, 0, -1, 0, 3, -1, 1] from by simp [ZScore.lastN]]
    rw [show ZScore.npMean [(0 : ℝ), -1, -2, -2, 0, -1, 0, 3, -1, 1] = -(3/10)
      from by norm_num [ZScore.npMean]]
    rw [show |(-(3/10) : ℝ) - -(1/3)| = 1/30 from by
      rw [show ((-(3/10) : ℝ) - -(1/3)) = 1/30 by norm_num]
      exact abs_of_nonneg (by norm_num)]
    rw [show |(-(1/3) : ℝ)| = 1/3 from by
      rw [abs_neg]
      exact abs_of_nonneg (by norm_num)]
    rw [show ((1 : ℝ)/3) ⊔ (1/1000000) = 1/3 from by
      rw [max_eq_left]
      norm_num]
    norm_num
  have hdrift2 : ¬ (10 ≤ (ZScore.updateStats ZScore.defaultZConfig cexState 1
        "t12").last_values.length ∧
      ZScore.driftLevel (ZScore.updateStats ZScore.defaultZConfig cexState 1
        "t12") > ZScore.defaultZConfig.drift_threshold) := by
    intro h
    have := h.2
    rw [hdl2] at this
    norm_num [ZScore.defaultZConfig] at this
  have hnoise2 : ¬ (5 ≤ (ZScore.updateStats ZScore.defaultZConfig cexState 1
        "t12").last_values.length ∧
      ZScore.npStd (ZScore.lastN 5
          (ZScore.updateStats ZScore.defaultZConfig cexState 1
            "t12").last_values) >
        (ZScore.updateStats ZScore.defaultZConfig cexState 1 "t12").std *
          (1 + ZScore.defaultZConfig.noise_threshold)) := by
    intro h
    have hgt := h.2
    rw [hlv2, hst2] at hgt
    rw [show ZScore.lastN 5 [(1 : ℝ), -2, 0, -1, -2, -2, 0, -1, 0, 3, -1, 1] =
      [(-1 : ℝ), 0, 3, -1, 1] from by simp [ZScore.lastN]] at hgt
    rw [show ZScore.npStd [(-1 : ℝ), 0, 3, -1, 1] = Real.sqrt (56/25) from by
      rw [ZScore.npStd]
      congr 1
      norm_num [ZScore.npVar, ZScore.npMean]] at hgt
    rw [show (1 : ℝ) + ZScore.defaultZConfig.noise_threshold = 21/20 from by
      norm_num [ZScore.defaultZConfig]] at hgt
    exact absurd hgt (not_lt.mpr
      (ZScore.sqrt_le_sqrt_mul_of_sq_le (37/18) (56/25) (21/20)
        (by norm_num) (by norm_num)))
  -- classify both readings
  have hcat1 : (ZScore.predictTrained ZScore.defaultZConfig cexState
      ⟨"t12", 0⟩).1.category = "noise" := by
    rw [ZScore.predictTrained_category]
    exact ZScore.classifyReading_noise_var _ _ _ _ hz1_6 hz1_3 hdrift1 hlen5a
      hnoise1
  have hcat2 : (ZScore.predictTrained ZScore.defaultZConfig cexState
      ⟨"t12", 1⟩).1.category = "normal" := by
    rw [ZScore.predictTrained_category]
    exact ZScore.classifyReading_normal _ _ _ _ hz2_6 hz2_3 hdrift2 hnoise2
  refine ⟨hfit, horder, ?_, ?_⟩
  · rw [hcat1]
    simp [ZScore.severityRank]
  · rw [hcat2]
    simp [ZScore.severityRank]

/-- C9 counterexample: writing metadata
`{model_type: zscore, trained_at: 2024-01-01T00:00:00, accuracy: 0.9,
readings_count: 100}` at save time `2024-06-01T12:00:00` and re-reading it
yields a dict whose `trained_at` is the save time (not the written value)
and which has no `readings_count` key at all — the round-trip claimed for
`{model_type, trained_at, accuracy, readings_count}` fails. -/
theorem metadata_roundtrip_fails :
    (MlDb.get_model_metadata
        (MlDb.save_model_metadata [] "dev-1" "pm2_5"
          { model_type := some "zscore",
            trained_at := some "2024-01-01T00:00:00",
            accuracy := some (9/10), readings_count := some 100,
            config := none }
          "2024-06-01T12:00:00")
        "dev-1" "pm2_5") =
      some
        [("model_type", MlDb.MVal.str "zscore"),
         ("trained_at", MlDb.MVal.str "2024-06-01T12:00:00"),
         ("accuracy", MlDb.MVal.num (9/10)),
         ("last_updated", MlDb.MVal.str "2024-06-01T12:00:00")] ∧
    "2024-06-01T12:00:00" ≠ "2024-01-01T00:00:00" := by
  constructor
  · simp [MlDb.get_model_metadata, MlDb.save_model_metadata, MlDb.upsert,
      List.find?]
  · decide

/-- C9 (amended): the round-trip through `save_model_metadata` /
`get_model_metadata` preserves `model_type`, and preserves `accuracy`
whenever the written accuracy is present and nonzero; `trained_at` comes
back as the timestamp of the save, not the written value, and
`readings_count` is not persisted — the returned dict has exactly the keys
`model_type`, `trained_at`, `accuracy`, `last_updated`. -/
theorem metadata_roundtrip_amended (db : MlDb.SqlDB)
    (dev st now : String) (md : MlDb.MetadataIn) (a : ℚ)
    (hacc : md.accuracy = some a) (ha : a ≠ 0) :
    MlDb.get_model_metadata (MlDb.save_model_metadata db dev st md now) dev st =
      some
        [("model_type", match md.model_type with
           | some s => MlDb.MVal.str s
           | none => MlDb.MVal.null),
         ("trained_at", MlDb.MVal.str now),
         ("accuracy", MlDb.MVal.num a),
         ("last_updated", MlDb.MVal.str now)] := by
  simp [MlDb.get_model_metadata, MlDb.save_model_metadata, MlDb.find?_upsert,
    hacc, ha]

/-- Witness for C9 (amended): a concrete nonzero-accuracy write round-trips
its `model_type` and `accuracy`. -/
theorem metadata_roundtrip_amended_witness :
    MlDb.get_model_metadata
        (MlDb.save_model_metadata [] "dev-2" "dBA"
          { model_type := some "stl", trained_at := none,
            accuracy := some (17/20), readings_count := some 60,
            config := none }
          "2025-02-03T04:05:06")
        "dev-2" "dBA" =
      some
        [("model_type", MlDb.MVal.str "stl"),
         ("trained_at", MlDb.MVal.str "2025-02-03T04:05:06"),
         ("accuracy", MlDb.MVal.num (17/20)),
         ("last_updated", MlDb.MVal.str "2025-02-03T04:05:06")] :=
  metadata_roundtrip_amended [] "dev-2" "dBA" "2025-02-03T04:05:06" _ (17/20)
    rfl (by norm_num)

/-- C10: when a trained sensor's strategy prediction has confidence below
the configured threshold, the orchestrator's `predict` rewrites only the
`category` (to `normal`) and `confidence` (to `0.1`) keys of that very
prediction dict: the returned `anomaly_score` and `details` are exactly
the strategy's, so no `fallback` marker appears unless the strategy put
one there — and the coerced result can still carry a nonzero
`anomaly_score`. -/
theorem confidence_floor_rewrites_only_two_fields (st : Orch.OrchState)
    (sid : String) (r : Orch.QReading) (dt : String) (det : Orch.Backend)
    (p : Orch.Prediction)
    (h1 : st.sensor_configs sid = some dt)
    (h2 : Orch.lookupD st.detectors dt = some det)
    (h3 : det.predict sid r = some p)
    (h4 : p.confidence < st.confidence_threshold) :
    Orch.predict st sid r =
      { category := "normal", confidence := 1/10,
        anomaly_score := p.anomaly_score, details := p.details } := by
  simp [Orch.predict, h1, h2, h3, h4]

/-- Witness for C10: a below-threshold `alert` prediction with
`anomaly_score = 3/4` and no `fallback` detail key is coerced to
`normal/0.1` while keeping the nonzero score and the empty details. -/
theorem confidence_floor_rewrites_only_two_fields_witness :
    Orch.predict
        { detectors :=
            [("zscore", ⟨fun _ => true, fun _ _ => some ⟨"alert", 3/10, 3/4, []⟩⟩)],
          ensemble_weights := [], ensemble_mode := false,
          confidence_threshold := 3/5,
          sensor_configs := fun _ => some "zscore" }
        "s1" { timestamp := "t", value := 0 } =
      { category := "normal", confidence := 1/10, anomaly_score := 3/4,
        details := [] } ∧ (3 : ℚ)/4 ≠ 0 :=
  ⟨confidence_floor_rewrites_only_two_fields _ "s1" _ "zscore"
      ⟨fun _ => true, fun _ _ => some ⟨"alert", 3/10, 3/4, []⟩⟩
      ⟨"alert", 3/10, 3/4, []⟩ rfl rfl rfl (by norm_num),
    by norm_num⟩

end SmartSensor
